import Mathlib

/-!
Shallow embedding of the Rectangle value type from the rust-structs repository
(src/src/method_syntax.rs and src/src/example_using_structs.rs), together with
theorems settling the specification claims about it.

The Rust code stores `width` and `height` as `u32` and computes the area with
the built-in `*`, whose overflow behaviour is modelled here as wrapping modulo
`2 ^ 32` (the release-mode semantics of unchecked `u32` multiplication).
Comparisons (`>`) and the `square` constructor involve no arithmetic that can
overflow, so they are embedded as plain total functions.
-/

namespace RustStructs

/-- Number of distinct values of the Rust `u32` type: `2 ^ 32`. -/
def u32Size : Nat := 2 ^ 32

/-- Embedding of `struct Rectangle { width: u32, height: u32 }`
(src/src/method_syntax.rs, lines 12-16). Field values are natural numbers;
a field holds a legal `u32` value exactly when it is below `u32Size`. -/
structure Rectangle where
  width : Nat
  height : Nat
  deriving DecidableEq

/-- Embedding of the method `Rectangle::area` (src/src/method_syntax.rs,
lines 22-24): `self.width * self.height`, a `u32` multiplication, hence
reduced modulo `u32Size`. -/
def Rectangle.area (self : Rectangle) : Nat :=
  (self.width * self.height) % u32Size

/-- Embedding of the method `Rectangle::can_hold` (src/src/method_syntax.rs,
lines 118-120): `self.width > other.width && self.height > other.height`. -/
def Rectangle.can_hold (self other : Rectangle) : Bool :=
  decide (self.width > other.width) && decide (self.height > other.height)

/-- Embedding of the associated function `Rectangle::square`
(src/src/method_syntax.rs, lines 140-145):
`Rectangle { width: size, height: size }`. -/
def Rectangle.square (size : Nat) : Rectangle :=
  { width := size, height := size }

/-- Embedding of the free function `area` from
src/src/example_using_structs.rs, lines 17-19: `width * height` on `u32`. -/
def area (width height : Nat) : Nat :=
  (width * height) % u32Size

/-- State-passing embedding of the call `rect.area()` through the immutable
borrow `&self`: the method body only reads the fields, so the receiver is
returned unchanged alongside the computed value. -/
def Rectangle.areaCall (self : Rectangle) : Nat × Rectangle :=
  (self.area, self)

/-- The console line printed by `main` in src/src/method_syntax.rs,
lines 30-40: the format string
"The area of the rectangle is ... square pixels." applied to
`rect1.area()` for `rect1 = Rectangle { width: 30, height: 50 }`. -/
def mainOutput : String :=
  "The area of the rectangle is " ++ toString (Rectangle.mk 30 50).area
    ++ " square pixels."

/-- The console line printed by `main` in src/src/example_using_structs.rs,
lines 7-15: the same format string applied to `area(30, 50)`. -/
def exampleMainOutput : String :=
  "The area of the rectangle is " ++ toString (area 30 50)
    ++ " square pixels."

/-- C1 counterexample: the claim "area(r) returns the product w * h" fails as
stated. The rectangle with width = height = 65536 has legal `u32` fields, yet
its `u32` area wraps to 0, which is not the product 65536 * 65536. -/
theorem area_overflow_counterexample :
    65536 < u32Size ∧ (Rectangle.mk 65536 65536).area = 0 ∧
      (Rectangle.mk 65536 65536).area ≠ 65536 * 65536 := by
  refine ⟨by decide, ?_, ?_⟩ <;> decide

/-- C1 (amended): for every Rectangle whose product width * height is
representable as a `u32` (strictly below `2 ^ 32`), both the method
`Rectangle::area` and the free function `area` return exactly the product
width * height. -/
theorem area_eq_product (r : Rectangle)
    (h : r.width * r.height < u32Size) :
    r.area = r.width * r.height ∧ area r.width r.height = r.width * r.height := by
  constructor <;> exact Nat.mod_eq_of_lt h

/-- Witness for C1 at the concrete rectangle 30 by 50. -/
theorem area_eq_product_witness :
    (Rectangle.mk 30 50).area = 30 * 50 ∧ area 30 50 = 30 * 50 :=
  area_eq_product (Rectangle.mk 30 50) (by decide)

/-- C2: `can_hold` returns true iff self.width > other.width and
self.height > other.height, and it is not an area comparison: there are
rectangles a, b with area a > area b for which `can_hold a b` is false. -/
theorem can_hold_spec :
    (∀ a b : Rectangle,
        a.can_hold b = true ↔ (a.width > b.width ∧ a.height > b.height)) ∧
    (∃ a b : Rectangle, a.area > b.area ∧ a.can_hold b = false) := by
  refine ⟨fun a b => ?_, ⟨Rectangle.mk 100 1, Rectangle.mk 2 2, by decide⟩⟩
  simp [Rectangle.can_hold]

/-- Witness for C2 at the concrete pair from `main_2`: the 30 by 50 rectangle
can hold the 10 by 40 rectangle. -/
theorem can_hold_spec_witness :
    (Rectangle.mk 30 50).can_hold (Rectangle.mk 10 40) = true :=
  (can_hold_spec.1 (Rectangle.mk 30 50) (Rectangle.mk 10 40)).mpr (by decide)

/-- C3: the associated constructor `square n` returns a Rectangle whose width
and height both equal n. -/
theorem square_spec (n : Nat) :
    (Rectangle.square n).width = n ∧ (Rectangle.square n).height = n :=
  ⟨rfl, rfl⟩

/-- Witness for C3 at n = 3, matching the call `Rectangle::square(3)` in the
source. -/
theorem square_spec_witness :
    (Rectangle.square 3).width = 3 ∧ (Rectangle.square 3).height = 3 :=
  square_spec 3

/-- C4: every Rectangle operation is total over its declared domain:
`can_hold` always yields a boolean, `square` always yields the requested
rectangle, and `area` yields the exact product whenever that product is
representable as a `u32` (the sole overflow edge case). -/
theorem rectangle_ops_total :
    (∀ a b : Rectangle, a.can_hold b = true ∨ a.can_hold b = false) ∧
    (∀ n : Nat,
        (Rectangle.square n).width = n ∧ (Rectangle.square n).height = n) ∧
    (∀ r : Rectangle,
        r.width * r.height < u32Size → r.area = r.width * r.height) := by
  refine ⟨fun a b => ?_, fun n => ⟨rfl, rfl⟩, fun r h => Nat.mod_eq_of_lt h⟩
  cases a.can_hold b
  · exact Or.inr rfl
  · exact Or.inl rfl

/-- Witness for C4 at the concrete rectangle 30 by 50, whose product 1500 is
representable. -/
theorem rectangle_ops_total_witness :
    (Rectangle.mk 30 50).area = 30 * 50 :=
  rectangle_ops_total.2.2 (Rectangle.mk 30 50) (by decide)

/-- C5: `area` is pure and deterministic: calling it through `&self` on equal
receivers yields equal values, and the call leaves every field of the
receiver unchanged. -/
theorem area_pure :
    (∀ r₁ r₂ : Rectangle, r₁ = r₂ → (r₁.areaCall).1 = (r₂.areaCall).1) ∧
    (∀ r : Rectangle, (r.areaCall).2 = r) :=
  ⟨fun _ _ h => by rw [h], fun _ => rfl⟩

/-- Witness for C5 at the concrete rectangle 30 by 50. -/
theorem area_pure_witness :
    ((Rectangle.mk 30 50).areaCall).1 = ((Rectangle.mk 30 50).areaCall).1 :=
  area_pure.1 (Rectangle.mk 30 50) (Rectangle.mk 30 50) rfl

/-- C6: `can_hold` is irreflexive: a rectangle can never hold a rectangle
with the same width and height, since both inequalities are strict. -/
theorem can_hold_irrefl (w h : Nat) :
    (Rectangle.mk w h).can_hold (Rectangle.mk w h) = false := by
  simp [Rectangle.can_hold]

/-- Witness for C6 at the concrete rectangle 30 by 50. -/
theorem can_hold_irrefl_witness :
    (Rectangle.mk 30 50).can_hold (Rectangle.mk 30 50) = false :=
  can_hold_irrefl 30 50

/-- C7: `can_hold` is not symmetric: for a = 30 by 50 and b = 10 by 40,
`a.can_hold b` is true while `b.can_hold a` is false. -/
theorem can_hold_not_symm :
    ∃ a b : Rectangle, a.can_hold b ≠ b.can_hold a :=
  ⟨Rectangle.mk 30 50, Rectangle.mk 10 40, by decide⟩

/-- C8: the rectangle 30 by 50 has area 1500, and both `main` functions
format it into the console line
"The area of the rectangle is 1500 square pixels.". -/
theorem main_area_output :
    (Rectangle.mk 30 50).area = 1500 ∧
    mainOutput = "The area of the rectangle is 1500 square pixels." ∧
    exampleMainOutput = "The area of the rectangle is 1500 square pixels." := by
  refine ⟨by decide, ?_, ?_⟩ <;> decide

/-- C9: `can_hold` is asymmetric: `a.can_hold b` and `b.can_hold a` are never
both true, since the strict inequalities on width would contradict. -/
theorem can_hold_asymm (a b : Rectangle) :
    (a.can_hold b && b.can_hold a) = false := by
  simp only [Rectangle.can_hold, Bool.and_eq_false_iff, decide_eq_false_iff_not,
    Bool.and_eq_true, decide_eq_true_eq]
  omega

/-- Witness for C9 at the concrete pair 30 by 50 and 10 by 40. -/
theorem can_hold_asymm_witness :
    ((Rectangle.mk 30 50).can_hold (Rectangle.mk 10 40) &&
      (Rectangle.mk 10 40).can_hold (Rectangle.mk 30 50)) = false :=
  can_hold_asymm (Rectangle.mk 30 50) (Rectangle.mk 10 40)

/-- C10: when neither product overflows `u32`, `a.can_hold b = true` implies
`area a > area b`: strict dominance in both dimensions forces a strictly
larger product. -/
theorem can_hold_implies_area_gt (a b : Rectangle)
    (ha : a.width * a.height < u32Size) (hb : b.width * b.height < u32Size)
    (h : a.can_hold b = true) : a.area > b.area := by
  have hab : b.width < a.width ∧ b.height < a.height := by
    simpa [Rectangle.can_hold] using h
  rw [Rectangle.area, Rectangle.area, Nat.mod_eq_of_lt ha, Nat.mod_eq_of_lt hb]
  exact Nat.mul_lt_mul'' hab.1 hab.2

/-- Witness for C10 at the concrete pair 30 by 50 and 10 by 40: area 1500
against area 400. -/
theorem can_hold_implies_area_gt_witness :
    (Rectangle.mk 30 50).area > (Rectangle.mk 10 40).area :=
  can_hold_implies_area_gt (Rectangle.mk 30 50) (Rectangle.mk 10 40)
    (by decide) (by decide) (by decide)

end RustStructs
